import Mathlib

/- Shallow embedding of the DOI-extraction core of src/index.js from the
scite browser extension.  The DOM snapshot the script reads (raw markup,
page title, hostname, meta elements, the data-doi attribute values, the
anchor elements the two querySelectorAll calls return) is the Snapshot
structure.  Each JavaScript regular expression is translated into an
explicit matcher over List Char that is run at every start position,
giving the leftmost-match semantics of RegExp.exec and String.match.
JavaScript truthiness of strategy results (undefined, null, false and the
empty string are falsy) is modelled by jsTruthy on Option String. -/

def quoteChar : Char := '\''

/-- Whitespace for the JS regex class backslash-s and for String.trim
(ASCII whitespace plus no-break space). -/
def jsSpace (c : Char) : Bool :=
  c == ' ' || c == '\t' || c == '\n' || c == '\r' || c.toNat == 11 || c.toNat == 12 ||
    c.toNat == 160

/-- The JS regex dot: any character except a line terminator. -/
def jsDotChar (c : Char) : Bool :=
  !(c == '\n' || c == '\r' || c.toNat == 8232 || c.toNat == 8233)

/-- Character class of the Crossref DOI regex used on the title,
with the i flag folding A-Z onto a-z. -/
def titleClassChar (c : Char) : Bool :=
  c == '-' || c == '.' || c == '_' || c == ';' || c == '(' || c == ')' || c == '/' ||
    c == ':' || c.isUpper || c.isLower || c.isDigit

/-- Consume a literal: if lit is a prefix of s, return the rest of s. -/
def dropLit : List Char → List Char → Option (List Char)
  | [], s => some s
  | _ :: _, [] => none
  | a :: as, b :: bs => if a == b then dropLit as bs else none

def startsWithLit (lit s : List Char) : Bool := (dropLit lit s).isSome

/-- Consume one character satisfying p. -/
def dropOneIf (p : Char → Bool) : List Char → Option (List Char)
  | [] => none
  | c :: s => if p c then some s else none

/-- JS String.indexOf(needle) >= 0, i.e. needle occurs somewhere in the haystack. -/
def containsSub (needle : List Char) : List Char → Bool
  | [] => needle.isEmpty
  | c :: r => startsWithLit needle (c :: r) || containsSub needle r

/-- JS String.trim. -/
def trimChars (s : List Char) : List Char :=
  ((s.dropWhile jsSpace).reverse.dropWhile jsSpace).reverse

/-- JS String.replace with a string pattern: remove the first occurrence of pat. -/
def replaceFirst (pat : List Char) : List Char → List Char
  | [] => []
  | c :: s =>
    match dropLit pat (c :: s) with
    | some r => r
    | none => c :: replaceFirst pat s

/-- All start positions a regex engine tries on a string, in order. -/
def suffixesOf : List Char → List (List Char)
  | [] => [[]]
  | c :: r => (c :: r) :: suffixesOf r

/-- Leftmost-match search: run the single-position matcher f at every
start position and keep the first capture. -/
def firstMatch (f : List Char → Option (List Char)) : List Char → Option (List Char)
  | [] => f []
  | c :: r =>
    match f (c :: r) with
    | some cap => some cap
    | none => firstMatch f r

/-- Matcher for a one-or-more run of non-quote characters followed by a
closing single quote, as in the regex fragment of one capture group
between quotes; returns the capture. -/
def captureToQuote (s : List Char) : Option (List Char) :=
  if (s.takeWhile (fun c => c != quoteChar)).isEmpty then none
  else if (s.dropWhile (fun c => c != quoteChar)).isEmpty then none
  else some (s.takeWhile (fun c => c != quoteChar))

/-- Lazy dot-star up to a literal delimiter: the shortest run of jsDot
characters after which delim starts; returns that run. -/
def lazyCaptureTo (delim : List Char) : List Char → Option (List Char)
  | [] => if startsWithLit delim [] then some [] else none
  | c :: r =>
    if startsWithLit delim (c :: r) then some []
    else if jsDotChar c then (lazyCaptureTo delim r).map (fun cs => c :: cs) else none

/-- A meta element as the script sees it through the DOM: the reflected
name, scheme and content properties, each the empty string when the
attribute is absent. -/
structure MetaTag where
  name : String
  scheme : String
  content : String

/-- The frozen view of the page read by the extraction code: raw markup
(document.documentElement.innerHTML), document.title,
window.location.hostname, the meta elements in document order, the
data-doi attribute values in document order, the innerHTML of the a.doi
anchors, and the innerHTML of the Pubmed aid_type=doi anchors. -/
structure Snapshot where
  rawMarkup : String
  title : String
  hostname : String
  metas : List MetaTag
  dataDoiValues : List String
  doiClassAnchors : List String
  pubmedAnchors : List String

/-- JS truthiness of a strategy result: null, undefined, false and the
empty string are falsy. -/
def jsTruthy : Option String → Bool
  | none => false
  | some s => s != ""

/-- runRegexOnDoc from the source: gate on the optional host (empty
string models the absent argument), then return the first capture group
of the first match on the raw markup. -/
def runRegexOnDoc (re : List Char → Option (List Char)) (host : String) (snap : Snapshot) :
    Option String :=
  if host = "" ∨ host = snap.hostname then (firstMatch re snap.rawMarkup.data).map String.mk
  else none

/-- Single-position matcher for the ScienceDirect legacy regex: literal
SDM, one any-character for the unescaped dot, literal doi, optional
whitespace, an equals sign, optional whitespace, a quote, then one
capture group of non-quote characters closed by a quote. -/
def sdmMatchAt (s : List Char) : Option (List Char) := do
  let s1 ← dropLit "SDM".data s
  let s2 ← dropOneIf jsDotChar s1
  let s3 ← dropLit "doi".data s2
  let s4 ← dropOneIf (fun c => c == '=') (s3.dropWhile jsSpace)
  let s5 ← dropOneIf (fun c => c == quoteChar) (s4.dropWhile jsSpace)
  captureToQuote s5

/-- Single-position matcher for the regex on the new ScienceDirect
anchor text: literal doi.org/ then a greedy one-or-more capture of
any-characters. -/
def doiOrgMatchAt (s : List Char) : Option (List Char) := do
  let s1 ← dropLit "doi.org/".data s
  let cap := s1.takeWhile jsDotChar
  if cap.isEmpty then none else some cap

/-- The literal of the IEEE regex: quote doi quote colon quote. -/
def ieeeLit : List Char := [quoteChar, 'd', 'o', 'i', quoteChar, ':', quoteChar]

/-- Single-position matcher for the IEEE regex. -/
def ieeeMatchAt (s : List Char) : Option (List Char) := do
  let s1 ← dropLit ieeeLit s
  captureToQuote s1

/-- Single-position matcher for the NBER regex: the plain-text label,
then a capture of literal 10 followed by a lazy dot-star up to a closing
paragraph tag. -/
def nberMatchAt (s : List Char) : Option (List Char) := do
  let s1 ← dropLit "Document Object Identifier (DOI): ".data s
  let s2 ← dropLit "10".data s1
  let mid ← lazyCaptureTo "</p>".data s2
  pure ('1' :: '0' :: mid)

/-- The literal of the Psycnet regex: href= quote /doi/10. -/
def psycnetLit : List Char := ['h', 'r', 'e', 'f', '=', quoteChar] ++ "/doi/10.".data

/-- Single-position matcher for the Psycnet regex: the literal, then a
greedy one-or-more capture of any-characters.  Note the capture starts
after the characters 10. of the literal. -/
def psycnetMatchAt (s : List Char) : Option (List Char) := do
  let s1 ← dropLit psycnetLit s
  let cap := s1.takeWhile jsDotChar
  if cap.isEmpty then none else some cap

/-- Single-position matcher for the Crossref DOI regex run on the title:
literal 10, an any-character for the unescaped dot, a greedy 4-to-9 run
of digits that must be followed by a slash, then a greedy one-or-more
run over the restricted character class.  The capture is the whole
match. -/
def titleMatchAt (s : List Char) : Option (List Char) :=
  match dropLit "10".data s with
  | none => none
  | some s1 =>
    match s1 with
    | [] => none
    | c :: s2 =>
      if jsDotChar c then
        if 4 ≤ (s2.takeWhile Char.isDigit).length ∧ (s2.takeWhile Char.isDigit).length ≤ 9 then
          match s2.dropWhile Char.isDigit with
          | [] => none
          | d :: s3 =>
            if d == '/' then
              if (s3.takeWhile titleClassChar).isEmpty then none
              else
                some ('1' :: '0' :: c ::
                  (s2.takeWhile Char.isDigit ++ '/' :: s3.takeWhile titleClassChar))
            else none
        else none
      else none

/-- The allow-list of meta names that may carry a DOI. -/
def doiMetaNames : List String :=
  ["citation_doi", "doi", "dc.doi", "dc.identifier", "dc.identifier.doi",
   "bepress_citation_doi", "rft_id", "dcsext.wt_doi"]

/-- JS toLowerCase, character by character. -/
def lowerAscii (s : String) : String := String.mk (s.data.map Char.toLower)

/-- The candidate characters of a meta content value: remove the first
occurrence of doi: then trim, exactly as content.replace followed by
trim does in the source. -/
def metaContentCandidate (content : String) : List Char :=
  trimChars (replaceFirst "doi:".data content.data)

/-- One iteration of the forEach body over the meta elements: skip on
falsy name, name not on the allow-list, or a truthy scheme different
from doi; otherwise accept the content candidate when it starts with
10. -/
def metaCandidate (m : MetaTag) : Option String :=
  if m.name = "" then none
  else if doiMetaNames.contains (lowerAscii m.name) = false then none
  else if m.scheme ≠ "" ∧ m.scheme ≠ "doi" then none
  else if startsWithLit "10.".data (metaContentCandidate m.content) = true then
    some (String.mk (metaContentCandidate m.content))
  else none

/-- The overwrite-in-loop of the meta scan: a later accepted candidate
replaces an earlier one. -/
def metaStep (acc : Option String) (m : MetaTag) : Option String :=
  match metaCandidate m with
  | some v => some v
  | none => acc

def findDoiFromMetaTags (snap : Snapshot) : Option String :=
  if jsTruthy (snap.metas.foldl metaStep none) = true then snap.metas.foldl metaStep none
  else none

def findDoiFromDataDoiAttributes (snap : Snapshot) : Option String :=
  if snap.dataDoiValues.dedup.length = 1 then snap.dataDoiValues.head? else none

def findDoiFromScienceDirect (snap : Snapshot) : Option String :=
  if containsSub "sciencedirect".data snap.hostname.data = true then
    if jsTruthy (runRegexOnDoc sdmMatchAt "" snap) = true then runRegexOnDoc sdmMatchAt "" snap
    else
      match snap.doiClassAnchors with
      | [] => none
      | inner :: _ => (firstMatch doiOrgMatchAt inner.data).map String.mk
  else none

def findDoiFromIeee (snap : Snapshot) : Option String :=
  runRegexOnDoc ieeeMatchAt "ieeexplore.ieee.org" snap

def findDoiFromNumber (snap : Snapshot) : Option String :=
  runRegexOnDoc nberMatchAt "www.nber.org" snap

def findDoiFromPubmed (snap : Snapshot) : Option String :=
  if containsSub "www.ncbi.nlm.nih.gov".data snap.hostname.data = true then
    match snap.pubmedAnchors with
    | [] => none
    | inner :: _ => some inner
  else none

def findDoiFromPsycnet (snap : Snapshot) : Option String :=
  runRegexOnDoc psycnetMatchAt "psycnet.apa.org" snap

def findDoiFromTitle (snap : Snapshot) : Option String :=
  (firstMatch titleMatchAt snap.title.data).map String.mk

/-- The array of strategy results in the declared order of findDoi. -/
def doiFinderResults (snap : Snapshot) : List (Option String) :=
  [findDoiFromMetaTags snap, findDoiFromDataDoiAttributes snap, findDoiFromScienceDirect snap,
   findDoiFromIeee snap, findDoiFromNumber snap, findDoiFromPsycnet snap,
   findDoiFromPubmed snap, findDoiFromTitle snap]

/-- The for loop of findDoi: the first truthy result wins. -/
def firstTruthy : List (Option String) → Option String
  | [] => none
  | r :: rest => if jsTruthy r = true then r else firstTruthy rest

def findDoi (snap : Snapshot) : Option String := firstTruthy (doiFinderResults snap)

/-- Modelled from the spec: the words of spec section 4.2 — strip a
LEADING literal doi: prefix and surrounding whitespace — stated as a
definition of its own, to be compared with metaContentCandidate, the
transformation the implementation performs (which removes the first
occurrence of doi: anywhere in the value). -/
def specStripLeadingDoi (content : String) : String :=
  match dropLit "doi:".data content.data with
  | some rest => String.mk (trimChars rest)
  | none => String.mk (trimChars content.data)

/- Concrete snapshots used as witnesses and counterexamples. -/

def snapC1 : Snapshot :=
  ⟨"", "Study (doi: 10.2222/title.x)", "example.org",
    [⟨"citation_doi", "", "10.1111/meta"⟩], [], [], []⟩

def snapC2 : Snapshot :=
  ⟨String.mk (['h', 'r', 'e', 'f', '=', quoteChar] ++ "/doi/10.1037/a0024338".data), "",
    "psycnet.apa.org", [], [], [], []⟩

def snapC3 : Snapshot :=
  ⟨"", "Study of X (doi: 10.1001/jama.2020.1234)", "example.org", [], [], [], []⟩

def snapC3b : Snapshot := ⟨"", "The quick brown fox", "example.org", [], [], [], []⟩

def snapC4 : Snapshot :=
  ⟨String.mk (ieeeLit ++ "10.1109/TEST.12".data ++ [quoteChar]), "", "example.org",
    [], [], [], []⟩

def snapC5 : Snapshot :=
  ⟨"", "", "example.org", [⟨"doi", "", "10.1/a"⟩, ⟨"citation_doi", "", "10.2/b"⟩], [], [], []⟩

def snapC6a : Snapshot := ⟨"", "", "example.org", [], ["10.5/x", "10.5/x", "10.5/x"], [], []⟩

def snapC6b : Snapshot := ⟨"", "", "example.org", [], ["10.5/x", "10.6/y"], [], []⟩

def snapC6c : Snapshot := ⟨"", "", "example.org", [], [], [], []⟩

def snapC7 : Snapshot :=
  ⟨"", "", "example.org", [⟨"citation_doi", "", "1doi:0.1234/abc"⟩], [], [], []⟩

def snapC7a : Snapshot :=
  ⟨"", "", "example.org", [⟨"citation_doi", "", "doi:10.1234/abc"⟩], [], [], []⟩

def snapC7b : Snapshot :=
  ⟨"", "", "example.org", [⟨"citation_doi", "", "doi:11.1/x"⟩], [], [], []⟩

def snapC8a : Snapshot :=
  ⟨"", "", "example.org", [⟨"citation_doi", "publisher-id", "10.1177/00034894991080S423"⟩],
    [], [], []⟩

def snapC8b : Snapshot := ⟨"", "", "example.org", [], [], [], []⟩

def snapC9 : Snapshot :=
  ⟨"", "", "www.sciencedirect.com", [⟨"viewport", "", "width=device-width"⟩], [], [], []⟩

def snapC10 : Snapshot := ⟨"", "x 10.1234/abcd y", "www.ncbi.nlm.nih.gov", [], [], [], [""]⟩

/- Helper lemmas. -/

theorem mk_cons_ne_empty (c : Char) (cs : List Char) : String.mk (c :: cs) ≠ "" := by
  intro h
  have h2 : c :: cs = ([] : List Char) := congrArg String.data h
  exact List.cons_ne_nil c cs h2

theorem startsLit10_ne_empty (v : String) (h : startsWithLit "10.".data v.data = true) :
    v ≠ "" := by
  intro he
  subst he
  exact absurd h (by decide)

theorem metaCandidate_starts (m : MetaTag) (v : String) (h : metaCandidate m = some v) :
    startsWithLit "10.".data v.data = true := by
  unfold metaCandidate at h
  by_cases h1 : m.name = ""
  · rw [if_pos h1] at h
    exact Option.noConfusion h
  · by_cases h2 : doiMetaNames.contains (lowerAscii m.name) = false
    · rw [if_neg h1, if_pos h2] at h
      exact Option.noConfusion h
    · by_cases h3 : m.scheme ≠ "" ∧ m.scheme ≠ "doi"
      · rw [if_neg h1, if_neg h2, if_pos h3] at h
        exact Option.noConfusion h
      · by_cases h4 : startsWithLit "10.".data (metaContentCandidate m.content) = true
        · rw [if_neg h1, if_neg h2, if_neg h3, if_pos h4] at h
          rw [← Option.some.inj h]
          exact h4
        · rw [if_neg h1, if_neg h2, if_neg h3, if_neg h4] at h
          exact Option.noConfusion h

theorem metaCandidate_ne_empty (m : MetaTag) (v : String) (h : metaCandidate m = some v) :
    v ≠ "" :=
  startsLit10_ne_empty v (metaCandidate_starts m v h)

theorem metaCandidate_scheme (m : MetaTag) (h1 : m.scheme ≠ "") (h2 : m.scheme ≠ "doi") :
    metaCandidate m = none := by
  unfold metaCandidate
  by_cases hn : m.name = ""
  · rw [if_pos hn]
  · rw [if_neg hn]
    by_cases hc : doiMetaNames.contains (lowerAscii m.name) = false
    · rw [if_pos hc]
    · rw [if_neg hc, if_pos ⟨h1, h2⟩]

theorem metaFold_none (l : List MetaTag) :
    ∀ acc : Option String, (∀ m ∈ l, metaCandidate m = none) → l.foldl metaStep acc = acc := by
  induction l with
  | nil => intro acc _; rfl
  | cons m r ih =>
    intro acc h
    have hm : metaCandidate m = none := h m (List.mem_cons_self m r)
    rw [List.foldl_cons, show metaStep acc m = acc from by simp [metaStep, hm]]
    exact ih acc (fun m2 hm2 => h m2 (List.mem_cons_of_mem m hm2))

theorem metaFold_last (pre post : List MetaTag) (m : MetaTag) (v : String) (acc : Option String)
    (hm : metaCandidate m = some v) (hpost : ∀ m2 ∈ post, metaCandidate m2 = none) :
    (pre ++ m :: post).foldl metaStep acc = some v := by
  rw [List.foldl_append, List.foldl_cons,
    show metaStep (pre.foldl metaStep acc) m = some v from by simp [metaStep, hm]]
  exact metaFold_none post (some v) hpost

theorem metaTags_some_ne_empty (snap : Snapshot) (v : String)
    (h : findDoiFromMetaTags snap = some v) : v ≠ "" := by
  unfold findDoiFromMetaTags at h
  by_cases hc : jsTruthy (snap.metas.foldl metaStep none) = true
  · rw [if_pos hc] at h
    rw [h] at hc
    simpa [jsTruthy] using hc
  · rw [if_neg hc] at h
    exact Option.noConfusion h

theorem firstTruthy_some :
    ∀ (l : List (Option String)) (d : String), firstTruthy l = some d → d ≠ "" := by
  intro l
  induction l with
  | nil => intro d h; exact Option.noConfusion h
  | cons r rest ih =>
    intro d h
    simp only [firstTruthy] at h
    by_cases hr : jsTruthy r = true
    · rw [if_pos hr] at h
      rw [h] at hr
      simpa [jsTruthy] using hr
    · rw [if_neg hr] at h
      exact ih d h

theorem firstTruthy_congr_falsy (l1 l2 : List (Option String)) (a b : Option String)
    (ha : jsTruthy a = false) (hb : jsTruthy b = false) :
    firstTruthy (l1 ++ a :: l2) = firstTruthy (l1 ++ b :: l2) := by
  induction l1 with
  | nil =>
    simp only [List.nil_append, firstTruthy]
    rw [ha, hb]
    simp
  | cons r rest ih =>
    by_cases hr : jsTruthy r = true
    · simp only [List.cons_append, firstTruthy]
      rw [if_pos hr, if_pos hr]
    · simp only [List.cons_append, firstTruthy]
      rw [if_neg hr, if_neg hr]
      exact ih

theorem firstMatch_none (f : List Char → Option (List Char)) :
    ∀ l : List Char, (∀ s ∈ suffixesOf l, f s = none) → firstMatch f l = none := by
  intro l
  induction l with
  | nil => intro h; exact h [] (by simp [suffixesOf])
  | cons c r ih =>
    intro h
    have hc : f (c :: r) = none := h (c :: r) (by simp [suffixesOf])
    have step : firstMatch f (c :: r) = firstMatch f r := by
      simp only [firstMatch]
      rw [hc]
    rw [step]
    exact ih (fun s hs => h s (by simp [suffixesOf, hs]))

theorem runRegexOnDoc_scope_mismatch (re : List Char → Option (List Char)) (host : String)
    (snap : Snapshot) (h1 : host ≠ "") (h2 : host ≠ snap.hostname) :
    runRegexOnDoc re host snap = none := by
  have hnc : ¬(host = "" ∨ host = snap.hostname) := by
    rintro (h | h)
    · exact h1 h
    · exact h2 h
  unfold runRegexOnDoc
  rw [if_neg hnc]

theorem runRegexOnDoc_no_match (re : List Char → Option (List Char)) (host : String)
    (snap : Snapshot) (h : ∀ s ∈ suffixesOf snap.rawMarkup.data, re s = none) :
    runRegexOnDoc re host snap = none := by
  unfold runRegexOnDoc
  split
  · rw [firstMatch_none re snap.rawMarkup.data h]
    rfl
  · rfl

/- Claim theorems. -/

/-- C1: the arbitration runs the strategies in the declared order and the
first truthy result wins: whenever the meta-tag strategy (the first in the
list) produces a truthy result, it is the overall answer, so no later
strategy can influence it; in particular, on any snapshot where the meta-tag
strategy and the title strategy both succeed with different values, findDoi
returns the meta-tag value and not the title value. -/
theorem claim_c1_first_found_wins :
    (∀ snap : Snapshot, jsTruthy (findDoiFromMetaTags snap) = true →
      findDoi snap = findDoiFromMetaTags snap) ∧
    (∀ (snap : Snapshot) (v w : String), findDoiFromMetaTags snap = some v →
      findDoiFromTitle snap = some w → v ≠ w →
      findDoi snap = some v ∧ findDoi snap ≠ some w) := by
  constructor
  · intro snap h
    unfold findDoi doiFinderResults
    simp only [firstTruthy]
    rw [if_pos h]
  · intro snap v w h1 h2 hne
    have hv : v ≠ "" := metaTags_some_ne_empty snap v h1
    have ht : jsTruthy (findDoiFromMetaTags snap) = true := by
      rw [h1]
      simpa [jsTruthy] using hv
    have hd : findDoi snap = some v := by
      unfold findDoi doiFinderResults
      simp only [firstTruthy]
      rw [if_pos ht]
      exact h1
    exact ⟨hd, by rw [hd]; exact fun hc => hne (Option.some.inj hc)⟩

theorem claim_c1_witness :
    findDoiFromMetaTags snapC1 = some "10.1111/meta" ∧
    findDoiFromTitle snapC1 = some "10.2222/title.x)" ∧
    findDoi snapC1 = some "10.1111/meta" ∧ findDoi snapC1 ≠ some "10.2222/title.x)" := by
  refine ⟨by decide, by decide, ?_, ?_⟩
  · exact (claim_c1_first_found_wins.2 snapC1 "10.1111/meta" "10.2222/title.x)" (by decide)
      (by decide) (by decide)).1
  · exact (claim_c1_first_found_wins.2 snapC1 "10.1111/meta" "10.2222/title.x)" (by decide)
      (by decide) (by decide)).2

/-- C2: refuted — code bug.  On a Psycnet snapshot whose markup matches the
href pattern, the strategy returns the capture group, which starts after the
literal characters 10. of the pattern, and findDoi never reconstructs that
prefix; the returned value is therefore not a complete, correctly prefixed
DOI: it does not begin with 10. as the claim states. -/
theorem claim_c2_psycnet_truncated :
    findDoiFromPsycnet snapC2 = some "1037/a0024338" ∧
    startsWithLit "10.".data "1037/a0024338".data = false ∧
    findDoi snapC2 = some "1037/a0024338" := by
  refine ⟨by decide, by decide, by decide⟩

/-- C3 counterexample: on exactly the title of the claim, the strategy
returns the match including the trailing closing parenthesis, not the bare
identifier the claim states. -/
theorem claim_c3_counterexample :
    findDoiFromTitle snapC3 = some "10.1001/jama.2020.1234)" ∧
    ¬ findDoiFromTitle snapC3 = some "10.1001/jama.2020.1234" := by
  refine ⟨by decide, by decide⟩

/-- C3 amended: the title containing (doi: 10.1001/jama.2020.1234) yields
10.1001/jama.2020.1234) — the closing parenthesis is part of the match
because the Crossref character class contains parentheses — and any title in
which the DOI pattern matches at no start position yields NotFound. -/
theorem claim_c3_title_behavior :
    findDoiFromTitle snapC3 = some "10.1001/jama.2020.1234)" ∧
    (∀ snap : Snapshot, (∀ s ∈ suffixesOf snap.title.data, titleMatchAt s = none) →
      findDoiFromTitle snap = none) := by
  constructor
  · decide
  · intro snap h
    unfold findDoiFromTitle
    rw [firstMatch_none titleMatchAt snap.title.data h]
    rfl

theorem claim_c3_witness :
    (∀ s ∈ suffixesOf snapC3b.title.data, titleMatchAt s = none) ∧
    findDoiFromTitle snapC3b = none :=
  ⟨by decide, claim_c3_title_behavior.2 snapC3b (by decide)⟩

/-- C4: each host-scoped strategy returns NotFound when the snapshot
hostname does not match its scope (a substring scope for ScienceDirect and
Pubmed, an equality scope for IEEE, NBER and Psycnet), whatever the markup
holds; and the generic pattern matcher returns NotFound whenever its host
argument is set and differs from the snapshot hostname. -/
theorem claim_c4_host_scoping (snap : Snapshot) :
    (containsSub "sciencedirect".data snap.hostname.data = false →
      findDoiFromScienceDirect snap = none) ∧
    (snap.hostname ≠ "ieeexplore.ieee.org" → findDoiFromIeee snap = none) ∧
    (snap.hostname ≠ "www.nber.org" → findDoiFromNumber snap = none) ∧
    (snap.hostname ≠ "psycnet.apa.org" → findDoiFromPsycnet snap = none) ∧
    (containsSub "www.ncbi.nlm.nih.gov".data snap.hostname.data = false →
      findDoiFromPubmed snap = none) ∧
    (∀ (re : List Char → Option (List Char)) (host : String), host ≠ "" →
      host ≠ snap.hostname → runRegexOnDoc re host snap = none) := by
  refine ⟨?_, ?_, ?_, ?_, ?_, ?_⟩
  · intro h
    simp [findDoiFromScienceDirect, h]
  · intro h
    exact runRegexOnDoc_scope_mismatch ieeeMatchAt "ieeexplore.ieee.org" snap (by decide)
      (fun he => h he.symm)
  · intro h
    exact runRegexOnDoc_scope_mismatch nberMatchAt "www.nber.org" snap (by decide)
      (fun he => h he.symm)
  · intro h
    exact runRegexOnDoc_scope_mismatch psycnetMatchAt "psycnet.apa.org" snap (by decide)
      (fun he => h he.symm)
  · intro h
    simp [findDoiFromPubmed, h]
  · intro re host h1 h2
    exact runRegexOnDoc_scope_mismatch re host snap h1 h2

theorem claim_c4_witness :
    containsSub "sciencedirect".data snapC4.hostname.data = false ∧
    snapC4.hostname ≠ "ieeexplore.ieee.org" ∧
    (firstMatch ieeeMatchAt snapC4.rawMarkup.data).isSome = true ∧
    findDoiFromScienceDirect snapC4 = none ∧
    findDoiFromIeee snapC4 = none ∧
    findDoiFromNumber snapC4 = none ∧
    findDoiFromPsycnet snapC4 = none ∧
    findDoiFromPubmed snapC4 = none ∧
    runRegexOnDoc ieeeMatchAt "ieeexplore.ieee.org" snapC4 = none := by
  refine ⟨by decide, by decide, by decide, ?_, ?_, ?_, ?_, ?_, ?_⟩
  · exact (claim_c4_host_scoping snapC4).1 (by decide)
  · exact (claim_c4_host_scoping snapC4).2.1 (by decide)
  · exact (claim_c4_host_scoping snapC4).2.2.1 (by decide)
  · exact (claim_c4_host_scoping snapC4).2.2.2.1 (by decide)
  · exact (claim_c4_host_scoping snapC4).2.2.2.2.1 (by decide)
  · exact (claim_c4_host_scoping snapC4).2.2.2.2.2 ieeeMatchAt "ieeexplore.ieee.org"
      (by decide) (by decide)

/-- C5: the meta scan is last-wins: on any snapshot whose meta list contains
two accepted elements with different values (and no accepted element after
the second), the result is the second value, not the first. -/
theorem claim_c5_last_wins (snap : Snapshot) (pre mid post : List MetaTag)
    (m1 m2 : MetaTag) (v1 v2 : String)
    (hmetas : snap.metas = pre ++ m1 :: mid ++ m2 :: post)
    (h1 : metaCandidate m1 = some v1) (h2 : metaCandidate m2 = some v2) (hne : v1 ≠ v2)
    (hpost : ∀ m ∈ post, metaCandidate m = none) :
    findDoiFromMetaTags snap = some v2 ∧ findDoiFromMetaTags snap ≠ some v1 := by
  have hassoc : pre ++ m1 :: mid ++ m2 :: post = (pre ++ m1 :: mid) ++ m2 :: post := by
    simp
  have hfold : snap.metas.foldl metaStep none = some v2 := by
    rw [hmetas, hassoc]
    exact metaFold_last (pre ++ m1 :: mid) post m2 v2 none h2 hpost
  have hv2 : v2 ≠ "" := metaCandidate_ne_empty m2 v2 h2
  have hres : findDoiFromMetaTags snap = some v2 := by
    unfold findDoiFromMetaTags
    rw [hfold]
    simp [jsTruthy, hv2]
  exact ⟨hres, by rw [hres]; exact fun hc => hne (Option.some.inj hc).symm⟩

theorem claim_c5_witness :
    metaCandidate ⟨"doi", "", "10.1/a"⟩ = some "10.1/a" ∧
    metaCandidate ⟨"citation_doi", "", "10.2/b"⟩ = some "10.2/b" ∧
    findDoiFromMetaTags snapC5 = some "10.2/b" ∧ findDoiFromMetaTags snapC5 ≠ some "10.1/a" := by
  refine ⟨by decide, by decide, ?_, ?_⟩
  · exact (claim_c5_last_wins snapC5 [] [] [] ⟨"doi", "", "10.1/a"⟩
      ⟨"citation_doi", "", "10.2/b"⟩ "10.1/a" "10.2/b" rfl (by decide) (by decide) (by decide)
      (by simp)).1
  · exact (claim_c5_last_wins snapC5 [] [] [] ⟨"doi", "", "10.1/a"⟩
      ⟨"citation_doi", "", "10.2/b"⟩ "10.1/a" "10.2/b" rfl (by decide) (by decide) (by decide)
      (by simp)).2

/-- C6: the data-attribute scan accepts a value iff exactly one distinct
data-doi value exists on the page: three elements sharing one value yield
that value, two elements with two distinct values yield NotFound, and zero
elements yield NotFound. -/
theorem claim_c6_distinct_data_doi :
    (∀ (snap : Snapshot) (v : String), snap.dataDoiValues = [v, v, v] →
      findDoiFromDataDoiAttributes snap = some v) ∧
    (∀ (snap : Snapshot) (v w : String), v ≠ w → snap.dataDoiValues = [v, w] →
      findDoiFromDataDoiAttributes snap = none) ∧
    (∀ snap : Snapshot, snap.dataDoiValues = [] → findDoiFromDataDoiAttributes snap = none) ∧
    (∀ snap : Snapshot,
      ((findDoiFromDataDoiAttributes snap).isSome = true ↔
        snap.dataDoiValues.dedup.length = 1)) := by
  refine ⟨?_, ?_, ?_, ?_⟩
  · intro snap v h
    have hd : ([v, v, v] : List String).dedup = [v] := by
      rw [List.dedup_cons_of_mem (by simp), List.dedup_cons_of_mem (by simp)]
      simp
    unfold findDoiFromDataDoiAttributes
    rw [h, hd]
    rfl
  · intro snap v w hvw h
    have hd : ([v, w] : List String).dedup = [v, w] := by
      rw [List.dedup_cons_of_not_mem (by simp [hvw])]
      simp
    unfold findDoiFromDataDoiAttributes
    rw [h, hd]
    simp
  · intro snap h
    unfold findDoiFromDataDoiAttributes
    rw [h]
    rfl
  · intro snap
    constructor
    · intro hs
      by_cases hc : snap.dataDoiValues.dedup.length = 1
      · exact hc
      · unfold findDoiFromDataDoiAttributes at hs
        rw [if_neg hc] at hs
        exact Bool.noConfusion hs
    · intro hc
      unfold findDoiFromDataDoiAttributes
      rw [if_pos hc]
      cases hdd : snap.dataDoiValues with
      | nil => rw [hdd] at hc; simp at hc
      | cons x xs => rfl

theorem claim_c6_witness :
    findDoiFromDataDoiAttributes snapC6a = some "10.5/x" ∧
    findDoiFromDataDoiAttributes snapC6b = none ∧
    findDoiFromDataDoiAttributes snapC6c = none ∧
    ((findDoiFromDataDoiAttributes snapC6a).isSome = true ↔
      snapC6a.dataDoiValues.dedup.length = 1) := by
  refine ⟨?_, ?_, ?_, ?_⟩
  · exact claim_c6_distinct_data_doi.1 snapC6a "10.5/x" rfl
  · exact claim_c6_distinct_data_doi.2.1 snapC6b "10.5/x" "10.6/y" (by decide) rfl
  · exact claim_c6_distinct_data_doi.2.2.1 snapC6c rfl
  · exact claim_c6_distinct_data_doi.2.2.2 snapC6a

/-- C7 counterexample: the scan does not strip only a LEADING doi: prefix as
the claim describes; it removes the first occurrence of doi: anywhere in the
content value.  On the content 1doi:0.1234/abc the scan accepts 10.1234/abc,
while the claim's transformation leaves the value unchanged, and unchanged it
does not start with 10. and would have to be rejected. -/
theorem claim_c7_counterexample :
    findDoiFromMetaTags snapC7 = some "10.1234/abc" ∧
    specStripLeadingDoi "1doi:0.1234/abc" = "1doi:0.1234/abc" ∧
    startsWithLit "10.".data "1doi:0.1234/abc".data = false := by
  refine ⟨by decide, by decide, by decide⟩

/-- C7 amended: for every qualifying meta element the scan removes the first
occurrence of the literal doi: (case-sensitive, anywhere in the content
value — in practice a leading prefix), trims surrounding whitespace, and
accepts the result exactly when it begins with 10.; in particular
doi:10.1234/abc yields 10.1234/abc, and a value not starting with 10. after
the transformation is rejected. -/
theorem claim_c7_content_transformation :
    (∀ (snap : Snapshot) (m : MetaTag), snap.metas = [m] → m.name ≠ "" →
      doiMetaNames.contains (lowerAscii m.name) = true → (m.scheme = "" ∨ m.scheme = "doi") →
      findDoiFromMetaTags snap =
        (if startsWithLit "10.".data (metaContentCandidate m.content) = true then
          some (String.mk (metaContentCandidate m.content))
        else none)) ∧
    findDoiFromMetaTags snapC7a = some "10.1234/abc" ∧
    findDoiFromMetaTags snapC7b = none := by
  refine ⟨?_, by decide, by decide⟩
  intro snap m hmetas hname hcont hscheme
  have hmc : metaCandidate m =
      (if startsWithLit "10.".data (metaContentCandidate m.content) = true then
        some (String.mk (metaContentCandidate m.content))
      else none) := by
    unfold metaCandidate
    rw [if_neg hname, if_neg (by simpa using hcont), if_neg (by
      rintro ⟨hc1, hc2⟩
      rcases hscheme with h | h
      · exact hc1 h
      · exact hc2 h)]
  unfold findDoiFromMetaTags
  rw [hmetas, List.foldl_cons, List.foldl_nil,
    show metaStep none m = metaCandidate m from by
      unfold metaStep; cases metaCandidate m <;> rfl,
    hmc]
  by_cases h4 : startsWithLit "10.".data (metaContentCandidate m.content) = true
  · have hne : String.mk (metaContentCandidate m.content) ≠ "" := by
      cases hcc : metaContentCandidate m.content with
      | nil => rw [hcc] at h4; exact absurd h4 (by decide)
      | cons c cs => exact mk_cons_ne_empty c cs
    rw [if_pos h4, if_pos (by simpa [jsTruthy] using hne)]
  · rw [if_neg h4]
    rfl

theorem claim_c7_witness :
    ("citation_doi" : String) ≠ "" ∧
    doiMetaNames.contains (lowerAscii "citation_doi") = true ∧
    findDoiFromMetaTags snapC7a =
      (if startsWithLit "10.".data (metaContentCandidate "doi:10.1234/abc") = true then
        some (String.mk (metaContentCandidate "doi:10.1234/abc"))
      else none) := by
  refine ⟨by decide, by decide, ?_⟩
  exact claim_c7_content_transformation.1 snapC7a ⟨"citation_doi", "", "doi:10.1234/abc"⟩ rfl
    (by decide) (by decide) (Or.inl rfl)

/-- C8: a meta element that carries a truthy scheme different from doi is
excluded from the scan — removing it from the meta list leaves the result
unchanged — even when its name is on the allow-list and its content looks
like a valid DOI. -/
theorem claim_c8_scheme_guard (snapA snapB : Snapshot) (pre post : List MetaTag) (m : MetaTag)
    (hs1 : m.scheme ≠ "") (hs2 : m.scheme ≠ "doi")
    (hA : snapA.metas = pre ++ m :: post) (hB : snapB.metas = pre ++ post) :
    findDoiFromMetaTags snapA = findDoiFromMetaTags snapB := by
  have hmc : metaCandidate m = none := metaCandidate_scheme m hs1 hs2
  have hfold : (pre ++ m :: post).foldl metaStep none = (pre ++ post).foldl metaStep none := by
    rw [List.foldl_append, List.foldl_append, List.foldl_cons,
      show metaStep (pre.foldl metaStep none) m = pre.foldl metaStep none from by
        simp [metaStep, hmc]]
  unfold findDoiFromMetaTags
  rw [hA, hB, hfold]

theorem claim_c8_witness :
    ("publisher-id" : String) ≠ "" ∧ ("publisher-id" : String) ≠ "doi" ∧
    findDoiFromMetaTags snapC8a = findDoiFromMetaTags snapC8b ∧
    findDoiFromMetaTags snapC8a = none := by
  refine ⟨by decide, by decide, ?_, by decide⟩
  exact claim_c8_scheme_guard snapC8a snapC8b [] []
    ⟨"citation_doi", "publisher-id", "10.1177/00034894991080S423"⟩
    (by decide) (by decide) rfl rfl

/-- C9: every strategy yields only Found (some) or NotFound (none); on a
snapshot carrying none of the markers a strategy looks for — no accepted
meta element, no data-doi attribute, no matching anchor element, no start
position at which its regex matches — each of the eight strategies returns
NotFound; and whenever all eight return NotFound the arbitration result is
NotFound. -/
theorem claim_c9_no_markers :
    (∀ snap : Snapshot,
      (∀ m ∈ snap.metas, metaCandidate m = none) →
      snap.dataDoiValues = [] →
      snap.doiClassAnchors = [] →
      snap.pubmedAnchors = [] →
      (∀ s ∈ suffixesOf snap.rawMarkup.data, sdmMatchAt s = none) →
      (∀ s ∈ suffixesOf snap.rawMarkup.data, ieeeMatchAt s = none) →
      (∀ s ∈ suffixesOf snap.rawMarkup.data, nberMatchAt s = none) →
      (∀ s ∈ suffixesOf snap.rawMarkup.data, psycnetMatchAt s = none) →
      (∀ s ∈ suffixesOf snap.title.data, titleMatchAt s = none) →
      findDoiFromMetaTags snap = none ∧ findDoiFromDataDoiAttributes snap = none ∧
      findDoiFromScienceDirect snap = none ∧ findDoiFromIeee snap = none ∧
      findDoiFromNumber snap = none ∧ findDoiFromPsycnet snap = none ∧
      findDoiFromPubmed snap = none ∧ findDoiFromTitle snap = none ∧
      findDoi snap = none) ∧
    (∀ snap : Snapshot, findDoiFromMetaTags snap = none →
      findDoiFromDataDoiAttributes snap = none → findDoiFromScienceDirect snap = none →
      findDoiFromIeee snap = none → findDoiFromNumber snap = none →
      findDoiFromPsycnet snap = none → findDoiFromPubmed snap = none →
      findDoiFromTitle snap = none → findDoi snap = none) := by
  constructor
  · intro snap hmetas hdd hcls hpm hsdm hieee hnber hpsy htitle
    have h1 : findDoiFromMetaTags snap = none := by
      unfold findDoiFromMetaTags
      rw [metaFold_none snap.metas none hmetas]
      rfl
    have h2 : findDoiFromDataDoiAttributes snap = none := by
      unfold findDoiFromDataDoiAttributes
      rw [hdd]
      rfl
    have h3 : findDoiFromScienceDirect snap = none := by
      unfold findDoiFromScienceDirect
      rw [runRegexOnDoc_no_match sdmMatchAt "" snap hsdm, hcls]
      split
      · rfl
      · rfl
    have h4 : findDoiFromIeee snap = none :=
      runRegexOnDoc_no_match ieeeMatchAt "ieeexplore.ieee.org" snap hieee
    have h5 : findDoiFromNumber snap = none :=
      runRegexOnDoc_no_match nberMatchAt "www.nber.org" snap hnber
    have h6 : findDoiFromPsycnet snap = none :=
      runRegexOnDoc_no_match psycnetMatchAt "psycnet.apa.org" snap hpsy
    have h7 : findDoiFromPubmed snap = none := by
      unfold findDoiFromPubmed
      rw [hpm]
      split
      · rfl
      · rfl
    have h8 : findDoiFromTitle snap = none := by
      unfold findDoiFromTitle
      rw [firstMatch_none titleMatchAt snap.title.data htitle]
      rfl
    refine ⟨h1, h2, h3, h4, h5, h6, h7, h8, ?_⟩
    unfold findDoi doiFinderResults
    rw [h1, h2, h3, h4, h5, h6, h7, h8]
    rfl
  · intro snap h1 h2 h3 h4 h5 h6 h7 h8
    unfold findDoi doiFinderResults
    rw [h1, h2, h3, h4, h5, h6, h7, h8]
    rfl

theorem claim_c9_witness :
    (∀ m ∈ snapC9.metas, metaCandidate m = none) ∧
    (∀ s ∈ suffixesOf snapC9.rawMarkup.data, sdmMatchAt s = none) ∧
    findDoiFromMetaTags snapC9 = none ∧ findDoiFromScienceDirect snapC9 = none ∧
    findDoi snapC9 = none := by
  refine ⟨by decide, by decide, ?_, ?_, ?_⟩
  · exact (claim_c9_no_markers.1 snapC9 (by decide) rfl rfl rfl (by decide) (by decide)
      (by decide) (by decide) (by decide)).1
  · exact (claim_c9_no_markers.1 snapC9 (by decide) rfl rfl rfl (by decide) (by decide)
      (by decide) (by decide) (by decide)).2.2.1
  · exact (claim_c9_no_markers.1 snapC9 (by decide) rfl rfl rfl (by decide) (by decide)
      (by decide) (by decide) (by decide)).2.2.2.2.2.2.2.2

/-- C10: an empty-string strategy result is falsy for the arbitration loop:
when the Pubmed strategy returns the empty string, findDoi behaves exactly
as if that slot were NotFound and continues with the remaining strategies;
consequently every Found overall result carries a non-empty DOI candidate. -/
theorem claim_c10_empty_result_falsy :
    (∀ (snap : Snapshot) (d : String), findDoi snap = some d → d ≠ "") ∧
    (∀ snap : Snapshot, findDoiFromPubmed snap = some "" →
      findDoi snap = firstTruthy [findDoiFromMetaTags snap, findDoiFromDataDoiAttributes snap,
        findDoiFromScienceDirect snap, findDoiFromIeee snap, findDoiFromNumber snap,
        findDoiFromPsycnet snap, none, findDoiFromTitle snap]) := by
  constructor
  · intro snap d h
    exact firstTruthy_some (doiFinderResults snap) d h
  · intro snap h
    unfold findDoi doiFinderResults
    rw [h]
    exact firstTruthy_congr_falsy
      [findDoiFromMetaTags snap, findDoiFromDataDoiAttributes snap,
        findDoiFromScienceDirect snap, findDoiFromIeee snap, findDoiFromNumber snap,
        findDoiFromPsycnet snap] [findDoiFromTitle snap] (some "") none (by decide) (by decide)

theorem claim_c10_witness :
    findDoiFromPubmed snapC10 = some "" ∧
    findDoi snapC10 = firstTruthy [findDoiFromMetaTags snapC10,
      findDoiFromDataDoiAttributes snapC10, findDoiFromScienceDirect snapC10,
      findDoiFromIeee snapC10, findDoiFromNumber snapC10, findDoiFromPsycnet snapC10,
      none, findDoiFromTitle snapC10] ∧
    findDoi snapC10 = some "10.1234/abcd" ∧ ("10.1234/abcd" : String) ≠ "" := by
  refine ⟨by decide, ?_, by decide, ?_⟩
  · exact claim_c10_empty_result_falsy.2 snapC10 (by decide)
  · exact claim_c10_empty_result_falsy.1 snapC10 "10.1234/abcd" (by decide)
